import Mathlib

/-!
Verification development for the Reseller Dashboard order-retrieval facade
and CSV upload validator.

The definitions below are a shallow embedding of the TypeScript source:
`src/utils/api.ts` (the `orderApi` facade and the axios response-error
interceptor) and `src/pages/Orders` (`calculateOrderAmount`,
`getDisplayStatus`, `fetchTabOrders`, `handleUpload`, `downloadTemplate`).
JavaScript semantics are made explicit: truthiness of optional strings and
numbers, `parseFloat` returning `NaN` on missing input (modelled by an
`Option` argument and a `JsNum` type with an explicit `nan` value),
`String.prototype.split`, `trim`, `toLowerCase`, `Array.prototype.indexOf`
bounds conventions, and the two regular expressions used by the CSV soft
checks.
-/

/-- JavaScript truthiness of an optional string value: `undefined`/`null`
and the empty string are falsy, every other string is truthy. -/
def jsTruthyStr (o : Option String) : Bool :=
  match o with
  | none => false
  | some s => s != ""

/-- JavaScript truthiness of an optional number value (here restricted to
naturals, which is what the UI supplies): `undefined`/`null` and `0` are
falsy. -/
def jsTruthyNat (o : Option Nat) : Bool :=
  match o with
  | none => false
  | some n => n != 0

/-- Model of the JavaScript `a || d` default idiom for numbers. -/
def jsOrNat (o : Option Nat) (d : Nat) : Nat :=
  if jsTruthyNat o then o.getD d else d

/-- Model of the JavaScript `a || d` default idiom for strings. -/
def jsOrStr (o : Option String) (d : String) : String :=
  if jsTruthyStr o then o.getD d else d

/-- The filter object accepted by every `orderApi` listing function
(`filters` in the source).  Fields the caller may omit are `Option`s. -/
structure OrderFilters where
  page : Option Nat := none
  page_size : Option Nat := none
  from_date : Option String := none
  to_date : Option String := none
  order_search_item : Option String := none
  source_option : Option String := none
  store_by : Option String := none
deriving DecidableEq, Repr

/-- The query-parameter object each listing function passes to
`orderApiClient.get`.  A key that the source conditionally spreads into the
object (`...(cond && { k: v })`) is an `Option` field; `none` means the key
is absent from the request. -/
structure OrderParams where
  page : Nat
  page_size : Nat
  from_date : Option String
  to_date : Option String
  order_search_item : Option String
  source_option : Option String
  store_by : String
deriving DecidableEq, Repr

/-- Params built by `orderApi.getAllOrders`: this is the one listing
function that suppresses `source_option` when its value is exactly the
mixed-case string `"All"`. -/
def getAllOrdersParams (filters : OrderFilters) : OrderParams where
  page := jsOrNat filters.page 1
  page_size := jsOrNat filters.page_size 20
  from_date := if jsTruthyStr filters.from_date then filters.from_date else none
  to_date := if jsTruthyStr filters.to_date then filters.to_date else none
  order_search_item :=
    if jsTruthyStr filters.order_search_item then filters.order_search_item else none
  source_option :=
    if jsTruthyStr filters.source_option && (filters.source_option.getD "" != "All")
    then filters.source_option else none
  store_by := jsOrStr filters.store_by "last_modified"

/-- Params built by the six other listing functions (`getConfirmedOrders`,
`getWaitForShippingOrders`, `getUnpaidOrders`, `getAbnormalOrders`,
`getTicketedOrders`, `getCancelledOrders`), whose bodies are textually
identical in the source: `source_option` is included whenever the filter
value is truthy, with no comparison against `"All"`. -/
def stdListParams (filters : OrderFilters) : OrderParams where
  page := jsOrNat filters.page 1
  page_size := jsOrNat filters.page_size 20
  from_date := if jsTruthyStr filters.from_date then filters.from_date else none
  to_date := if jsTruthyStr filters.to_date then filters.to_date else none
  order_search_item :=
    if jsTruthyStr filters.order_search_item then filters.order_search_item else none
  source_option :=
    if jsTruthyStr filters.source_option then filters.source_option else none
  store_by := jsOrStr filters.store_by "last_modified"

/-- A backend request issued by a listing function: the endpoint path and
the query parameters. -/
structure OrderRequest where
  endpoint : String
  params : OrderParams
deriving DecidableEq, Repr

def getAllOrdersRequest (filters : OrderFilters) : OrderRequest :=
  ⟨"/orders/get-all-orders", getAllOrdersParams filters⟩

def getConfirmedOrdersRequest (filters : OrderFilters) : OrderRequest :=
  ⟨"/orders/get-confirmed-orders", stdListParams filters⟩

def getWaitForShippingOrdersRequest (filters : OrderFilters) : OrderRequest :=
  ⟨"/orders/get-unshipped-orders", stdListParams filters⟩

def getUnpaidOrdersRequest (filters : OrderFilters) : OrderRequest :=
  ⟨"/orders/get-unpaid-orders", stdListParams filters⟩

def getAbnormalOrdersRequest (filters : OrderFilters) : OrderRequest :=
  ⟨"/orders/get-returned-orders", stdListParams filters⟩

def getTicketedOrdersRequest (filters : OrderFilters) : OrderRequest :=
  ⟨"/orders/get-ticketed-orders", stdListParams filters⟩

def getCancelledOrdersRequest (filters : OrderFilters) : OrderRequest :=
  ⟨"/orders/get-cancelled-orders", stdListParams filters⟩

/-- Tab dispatch of `fetchTabOrders` in the Orders page: a `switch` on the
tab id where the `'all'` case and the `default` case share the
`getAllOrders` call. -/
def fetchTabOrders (tab : String) (filters : OrderFilters) : OrderRequest :=
  if tab == "awaiting-payment" then getUnpaidOrdersRequest filters
  else if tab == "processing" then getWaitForShippingOrdersRequest filters
  else if tab == "shipped" then getConfirmedOrdersRequest filters
  else if tab == "abnormal" then getAbnormalOrdersRequest filters
  else if tab == "ticketed" then getTicketedOrdersRequest filters
  else if tab == "cancelled" then getCancelledOrdersRequest filters
  else getAllOrdersRequest filters

/-- The tab ids the Orders page knows about (the `TabsTrigger` values and
`switch` cases). -/
def knownTabs : List String :=
  ["all", "awaiting-payment", "processing", "shipped", "abnormal", "ticketed", "cancelled"]

lemma isSome_if_truthy (o : Option String) :
    (if jsTruthyStr o then o else none).isSome = jsTruthyStr o := by
  cases o with
  | none => rfl
  | some s => by_cases h : s = "" <;> simp [jsTruthyStr, h]

/-- C10: for every filter object, the query parameters built by
`getAllOrders` contain `from_date`, `to_date`, `order_search_item` exactly
when the corresponding filter field is present and non-empty, and `page`,
`page_size`, `store_by` are always present, defaulting to `1`, `20` and
`"last_modified"` when the filter omits them. -/
theorem c10_getAllOrders_params (f : OrderFilters) :
    ((getAllOrdersParams f).from_date.isSome = jsTruthyStr f.from_date) ∧
    ((getAllOrdersParams f).to_date.isSome = jsTruthyStr f.to_date) ∧
    ((getAllOrdersParams f).order_search_item.isSome = jsTruthyStr f.order_search_item) ∧
    (f.page = none → (getAllOrdersParams f).page = 1) ∧
    (f.page_size = none → (getAllOrdersParams f).page_size = 20) ∧
    (jsTruthyStr f.store_by = false → (getAllOrdersParams f).store_by = "last_modified") := by
  refine ⟨isSome_if_truthy _, isSome_if_truthy _, isSome_if_truthy _, ?_, ?_, ?_⟩
  · intro h; simp [getAllOrdersParams, jsOrNat, jsTruthyNat, h]
  · intro h; simp [getAllOrdersParams, jsOrNat, jsTruthyNat, h]
  · intro h; simp [getAllOrdersParams, jsOrStr, h]

/-- Witness for C10 at the empty filter object. -/
theorem c10_getAllOrders_params_witness :
    (getAllOrdersParams {}).page = 1 ∧ (getAllOrdersParams {}).page_size = 20 ∧
    (getAllOrdersParams {}).store_by = "last_modified" :=
  ⟨(c10_getAllOrders_params {}).2.2.2.1 rfl,
   (c10_getAllOrders_params {}).2.2.2.2.1 rfl,
   (c10_getAllOrders_params {}).2.2.2.2.2 (by decide)⟩

/-- C1, counterexample: with `source_option = "ALL"` (the exact value the
Orders page sends for the All marketplace choice), both `getAllOrders`
(whose guard compares against the mixed-case `"All"`) and `getUnpaidOrders`
(which has no guard at all) include a `source_option` query parameter, so
the claim that no listing request carries `source_option` for the value
`"ALL"` is false. -/
theorem c1_counterexample :
    ((getAllOrdersRequest { source_option := some "ALL" }).params.source_option = some "ALL") ∧
    ((getUnpaidOrdersRequest { source_option := some "ALL" }).params.source_option = some "ALL") :=
  ⟨rfl, rfl⟩

/-- C1, amended: when `source_option` is absent or empty no listing request
includes a `source_option` parameter; `getAllOrders` additionally omits it
exactly for the mixed-case value `"All"` (every other non-empty value,
including `"ALL"`, is included), while the six other listing functions
include it for every non-empty value. -/
theorem c1_amended (f : OrderFilters) :
    (jsTruthyStr f.source_option = false →
      (getAllOrdersRequest f).params.source_option = none ∧
      (getUnpaidOrdersRequest f).params.source_option = none ∧
      (getWaitForShippingOrdersRequest f).params.source_option = none ∧
      (getConfirmedOrdersRequest f).params.source_option = none ∧
      (getAbnormalOrdersRequest f).params.source_option = none ∧
      (getTicketedOrdersRequest f).params.source_option = none ∧
      (getCancelledOrdersRequest f).params.source_option = none) ∧
    (f.source_option = some "All" → (getAllOrdersRequest f).params.source_option = none) ∧
    (∀ s : String, s ≠ "" → s ≠ "All" → f.source_option = some s →
      (getAllOrdersRequest f).params.source_option = some s) ∧
    (∀ s : String, s ≠ "" → f.source_option = some s →
      (getUnpaidOrdersRequest f).params.source_option = some s ∧
      (getWaitForShippingOrdersRequest f).params.source_option = some s ∧
      (getConfirmedOrdersRequest f).params.source_option = some s ∧
      (getAbnormalOrdersRequest f).params.source_option = some s ∧
      (getTicketedOrdersRequest f).params.source_option = some s ∧
      (getCancelledOrdersRequest f).params.source_option = some s) := by
  refine ⟨?_, ?_, ?_, ?_⟩
  · intro h
    simp [getAllOrdersRequest, getUnpaidOrdersRequest, getWaitForShippingOrdersRequest,
      getConfirmedOrdersRequest, getAbnormalOrdersRequest, getTicketedOrdersRequest,
      getCancelledOrdersRequest, getAllOrdersParams, stdListParams, h]
  · intro h
    simp [getAllOrdersRequest, getAllOrdersParams, h, jsTruthyStr]
  · intro s hs hA h
    simp [getAllOrdersRequest, getAllOrdersParams, h, jsTruthyStr, hs, hA]
  · intro s hs h
    simp [getUnpaidOrdersRequest, getWaitForShippingOrdersRequest, getConfirmedOrdersRequest,
      getAbnormalOrdersRequest, getTicketedOrdersRequest, getCancelledOrdersRequest,
      stdListParams, h, jsTruthyStr, hs]

/-- Witness for C1 amended: the empty filter, the `"All"` filter, the
`"ALL"` filter on `getAllOrders`, and a concrete marketplace value on the
other listing functions. -/
theorem c1_amended_witness :
    (getAllOrdersRequest {}).params.source_option = none ∧
    (getAllOrdersRequest { source_option := some "All" }).params.source_option = none ∧
    (getAllOrdersRequest { source_option := some "ALL" }).params.source_option = some "ALL" ∧
    (getUnpaidOrdersRequest { source_option := some "1" }).params.source_option = some "1" ∧
    (getCancelledOrdersRequest { source_option := some "1" }).params.source_option = some "1" :=
  ⟨((c1_amended {}).1 (by decide)).1,
   (c1_amended { source_option := some "All" }).2.1 rfl,
   (c1_amended { source_option := some "ALL" }).2.2.1 "ALL" (by decide) (by decide) rfl,
   ((c1_amended { source_option := some "1" }).2.2.2 "1" (by decide) rfl).1,
   ((c1_amended { source_option := some "1" }).2.2.2 "1" (by decide) rfl).2.2.2.2.2⟩

/-- C5: for every tab id outside the known set, `fetchTabOrders` issues
exactly the request it issues for tab `"all"` with the same filter (and
hence receives the same result from the backend). -/
theorem c5_unknown_tab_falls_back (tab : String) (f : OrderFilters)
    (h : tab ∉ knownTabs) : fetchTabOrders tab f = fetchTabOrders "all" f := by
  simp only [knownTabs, List.mem_cons, List.not_mem_nil, or_false, not_or] at h
  obtain ⟨-, h1, h2, h3, h4, h5, h6⟩ := h
  simp [fetchTabOrders, h1, h2, h3, h4, h5, h6]

/-- Witness for C5 at the unknown tab id `"bogus"`. -/
theorem c5_unknown_tab_falls_back_witness :
    fetchTabOrders "bogus" {} = fetchTabOrders "all" {} :=
  c5_unknown_tab_falls_back "bogus" {} (by decide)

/-- A JavaScript number for the amount computation in the exact-arithmetic
idealization: either `NaN` or an exact rational value.  `NaN` is what
`parseFloat` yields on `undefined` or non-numeric input, and it propagates
through `+` and `*`.  This idealization replaces IEEE-754 binary64
rounding by exact rational arithmetic; it is faithful for everything that
only depends on which rows are `NaN` (C2), while the rounding-faithful
binary64 model used for reordering questions is `FpNum` below. -/
inductive JsNum where
  | nan : JsNum
  | num : ℚ → JsNum
deriving DecidableEq, Repr

/-- JavaScript addition with `NaN` propagation. -/
def jadd : JsNum → JsNum → JsNum
  | JsNum.num a, JsNum.num b => JsNum.num (a + b)
  | _, _ => JsNum.nan

/-- JavaScript multiplication with `NaN` propagation (sign subtleties of
`0 * Infinity` etc. do not arise here). -/
def jmul : JsNum → JsNum → JsNum
  | JsNum.num a, JsNum.num b => JsNum.num (a * b)
  | _, _ => JsNum.nan

/-- A product row of an order as consumed by `calculateOrderAmount`.
`final_price` is the result of `parseFloat(product.final_price)`: `none`
models a missing or non-numeric field (which `parseFloat` turns into
`NaN`), `some q` a numeric one. -/
structure OrderProduct where
  final_price : Option ℚ
  quantity : ℚ
deriving DecidableEq, Repr

/-- `parseFloat` applied to the (possibly missing) `final_price` field. -/
def parseFloatOpt : Option ℚ → JsNum
  | none => JsNum.nan
  | some q => JsNum.num q

/-- The callback of the `reduce` in `calculateOrderAmount`:
`(sum, product) => sum + parseFloat(product.final_price) * product.quantity`. -/
def amountStep (sum : JsNum) (product : OrderProduct) : JsNum :=
  jadd sum (jmul (parseFloatOpt product.final_price) (JsNum.num product.quantity))

/-- `calculateOrderAmount` from the Orders page: `0` when `products` is
missing or not an array, otherwise
`products.reduce((sum, p) => sum + parseFloat(p.final_price) * p.quantity, 0)`. -/
def calculateOrderAmount : Option (List OrderProduct) → JsNum
  | none => JsNum.num 0
  | some products => products.foldl amountStep (JsNum.num 0)

/-- Modelled from the spec sentence for C2 (not from the source): the sum
over products of `finalPrice * quantity` where a missing or non-numeric
`finalPrice` contributes `0` and no row is dropped. -/
def calculateOrderAmountSpec : Option (List OrderProduct) → JsNum
  | none => JsNum.num 0
  | some products =>
      JsNum.num ((products.map (fun p => p.final_price.getD 0 * p.quantity)).sum)

lemma amountStep_nan (p : OrderProduct) : amountStep JsNum.nan p = JsNum.nan := by
  simp [amountStep, jadd]

lemma amountStep_none (a : ℚ) (p : OrderProduct) (hp : p.final_price = none) :
    amountStep (JsNum.num a) p = JsNum.nan := by
  simp [amountStep, hp, parseFloatOpt, jmul, jadd]

lemma amountStep_some (a q : ℚ) (p : OrderProduct) (hp : p.final_price = some q) :
    amountStep (JsNum.num a) p = JsNum.num (a + q * p.quantity) := by
  simp [amountStep, hp, parseFloatOpt, jmul, jadd]

lemma foldl_amountStep_nan (l : List OrderProduct) :
    l.foldl amountStep JsNum.nan = JsNum.nan := by
  induction l with
  | nil => rfl
  | cons p t ih => rw [List.foldl_cons, amountStep_nan, ih]

lemma foldl_amountStep_closed (l : List OrderProduct) (a : ℚ) :
    l.foldl amountStep (JsNum.num a) =
    if l.any (fun p => p.final_price.isNone) then JsNum.nan
    else JsNum.num (a + (l.map (fun p => p.final_price.getD 0 * p.quantity)).sum) := by
  induction l generalizing a with
  | nil => simp
  | cons p t ih =>
      cases hp : p.final_price with
      | none =>
          rw [List.foldl_cons, amountStep_none a p hp, foldl_amountStep_nan]
          simp [hp]
      | some q =>
          rw [List.foldl_cons, amountStep_some a q p hp, ih]
          by_cases ht : t.any (fun p => p.final_price.isNone) = true <;>
            simp [ht, hp, add_assoc]

/-- C2, counterexample: a single product row with a missing `final_price`
makes `calculateOrderAmount` return `NaN`, not the `0`-contribution sum the
claim describes, so the two disagree. -/
theorem c2_counterexample :
    calculateOrderAmount (some [⟨none, 1⟩]) = JsNum.nan ∧
    calculateOrderAmountSpec (some [⟨none, 1⟩]) = JsNum.num 0 ∧
    calculateOrderAmount (some [⟨none, 1⟩]) ≠ calculateOrderAmountSpec (some [⟨none, 1⟩]) := by
  refine ⟨rfl, by simp [calculateOrderAmountSpec], by decide⟩

/-- C2, amended: `calculateOrderAmount` returns the sum of
`final_price * quantity` over all rows when every row has a numeric
`final_price`; if any row has a missing or non-numeric `final_price` the
whole result is `NaN` (no row is dropped, and the absent-list case yields
`0`). -/
theorem c2_amended :
    (∀ l : List OrderProduct,
      calculateOrderAmount (some l) =
        if l.any (fun p => p.final_price.isNone) then JsNum.nan
        else JsNum.num ((l.map (fun p => p.final_price.getD 0 * p.quantity)).sum)) ∧
    calculateOrderAmount none = JsNum.num 0 := by
  refine ⟨fun l => ?_, rfl⟩
  simpa using foldl_amountStep_closed l 0

lemma perm_any_eq {α : Type} (l₁ l₂ : List α) (h : l₁.Perm l₂) (f : α → Bool) :
    l₁.any f = l₂.any f := by
  cases h1 : l₁.any f with
  | true =>
      obtain ⟨x, hx, hfx⟩ := List.any_eq_true.mp h1
      exact (List.any_eq_true.mpr ⟨x, h.mem_iff.mp hx, hfx⟩).symm
  | false =>
      cases h2 : l₂.any f with
      | true =>
          obtain ⟨x, hx, hfx⟩ := List.any_eq_true.mp h2
          exact absurd (List.any_eq_true.mpr ⟨x, h.mem_iff.mpr hx, hfx⟩)
            (by simp [h1])
      | false => rfl

/-- A finite IEEE-754 binary64 value `m * 2^e` in canonical form (`m` odd,
or `m = 0` with `e = 0`).  The program's numbers are JavaScript doubles;
this model rounds every arithmetic result to 53 significant bits with
round-to-nearest, ties-to-even, exactly as binary64 does in the normal
range (overflow and subnormals are far outside the values exercised here
and are not modelled). -/
structure DblVal where
  m : ℤ
  e : ℤ
deriving DecidableEq, Repr

/-- Bit length of a natural number (fuel-based so that the kernel can
evaluate it; the fuel far exceeds every bit length arising here). -/
def bitLen : Nat → Nat → Nat
  | 0, _ => 0
  | fuel+1, n => if n = 0 then 0 else bitLen fuel (n / 2) + 1

/-- Remove factors of two from a mantissa, raising the exponent, to reach
the canonical odd-mantissa form. -/
def stripTwosN : Nat → Nat → ℤ → Nat × ℤ
  | 0, n, e => (n, e)
  | fuel+1, n, e => if n ≠ 0 ∧ n % 2 = 0 then stripTwosN fuel (n / 2) (e + 1) else (n, e)

/-- Build the canonical `DblVal` for the value `±n * 2^e`. -/
def canonDbl (neg : Bool) (n : Nat) (e : ℤ) : DblVal :=
  if n = 0 then ⟨0, 0⟩
  else
    let p := stripTwosN 20000 n e
    ⟨if neg then -(p.1 : ℤ) else (p.1 : ℤ), p.2⟩

/-- Round the exact value `±n * 2^e` to 53 significant bits,
round-to-nearest ties-to-even.  Addition and multiplication of doubles are
exact-result-then-round, so this single rounding step gives the IEEE
result. -/
def roundDbl (neg : Bool) (n : Nat) (e : ℤ) : DblVal :=
  let L := bitLen 20000 n
  if L ≤ 53 then canonDbl neg n e
  else
    let shift := L - 53
    let q := n / 2 ^ shift
    let r := n % 2 ^ shift
    let half := 2 ^ (shift - 1)
    let q' := if r < half then q
              else if half < r then q + 1
              else if q % 2 = 0 then q else q + 1
    canonDbl neg q' (e + shift)

/-- IEEE binary64 addition: the exact sum, rounded once. -/
def dadd (a b : DblVal) : DblVal :=
  if a.e ≤ b.e then
    let s := a.m + b.m * 2 ^ (b.e - a.e).toNat
    roundDbl (decide (s < 0)) s.natAbs a.e
  else
    let s := a.m * 2 ^ (a.e - b.e).toNat + b.m
    roundDbl (decide (s < 0)) s.natAbs b.e

/-- IEEE binary64 multiplication: the exact product, rounded once. -/
def dmul (a b : DblVal) : DblVal :=
  let p := a.m * b.m
  roundDbl (decide (p < 0)) p.natAbs (a.e + b.e)

/-- The binary64 double nearest to the rational `num / den` (round to
nearest, ties to even): this is the double a JavaScript decimal literal or
`parseFloat` string with that exact value denotes.  The quotient is scaled
so its integer part carries at least 54 bits; the division remainder
breaks the halfway comparison exactly. -/
def ratToDbl (num : ℤ) (den : Nat) : DblVal :=
  if num = 0 then ⟨0, 0⟩
  else
    let a := num.natAbs
    let La := bitLen 20000 a
    let Lb := bitLen 20000 den
    let s := Lb + 55 - La
    let n := a * 2 ^ s / den
    let r := a * 2 ^ s % den
    let L := bitLen 20000 n
    let shift := L - 53
    let q := n / 2 ^ shift
    let rem := n % 2 ^ shift
    let half := 2 ^ (shift - 1)
    let q' := if rem < half then q
              else if half < rem then q + 1
              else if r ≠ 0 then q + 1
              else if q % 2 = 0 then q else q + 1
    canonDbl (decide (num < 0)) q' ((shift : ℤ) - (s : ℤ))

/-- The double `0`. -/
def dblZero : DblVal := ⟨0, 0⟩

/-- A JavaScript number in the rounding-faithful binary64 model: `NaN` or a
finite double. -/
inductive FpNum where
  | nan : FpNum
  | val : DblVal → FpNum
deriving DecidableEq, Repr

/-- Binary64 addition with `NaN` propagation. -/
def fpAdd : FpNum → FpNum → FpNum
  | FpNum.val a, FpNum.val b => FpNum.val (dadd a b)
  | _, _ => FpNum.nan

/-- Binary64 multiplication with `NaN` propagation. -/
def fpMul : FpNum → FpNum → FpNum
  | FpNum.val a, FpNum.val b => FpNum.val (dmul a b)
  | _, _ => FpNum.nan

/-- A product row in the binary64 model: `final_price` is the double
`parseFloat` produced (`none` for a missing or non-numeric field),
`quantity` the double the backend number deserialized to. -/
structure FpProduct where
  final_price : Option DblVal
  quantity : DblVal
deriving DecidableEq, Repr

/-- `parseFloat` of the possibly missing `final_price`, binary64 model. -/
def parseFloatFp : Option DblVal → FpNum
  | none => FpNum.nan
  | some d => FpNum.val d

/-- The `reduce` callback of `calculateOrderAmount`, binary64 model. -/
def amountStepFp (sum : FpNum) (product : FpProduct) : FpNum :=
  fpAdd sum (fpMul (parseFloatFp product.final_price) (FpNum.val product.quantity))

/-- `calculateOrderAmount`, binary64 model: the same source function as
`calculateOrderAmount` above, with the program's actual double arithmetic
instead of the exact-rational idealization. -/
def calculateOrderAmountFp : Option (List FpProduct) → FpNum
  | none => FpNum.val dblZero
  | some products => products.foldl amountStepFp (FpNum.val dblZero)

/-- Whether a result is `NaN`. -/
def isNanFp : FpNum → Bool
  | FpNum.nan => true
  | FpNum.val _ => false

lemma fpAdd_nan_left (x : FpNum) : fpAdd FpNum.nan x = FpNum.nan := by
  cases x <;> rfl

lemma amountStepFp_nan (p : FpProduct) : amountStepFp FpNum.nan p = FpNum.nan := by
  simp only [amountStepFp, fpAdd_nan_left]

lemma amountStepFp_none (d : DblVal) (p : FpProduct) (hp : p.final_price = none) :
    amountStepFp (FpNum.val d) p = FpNum.nan := by
  simp [amountStepFp, hp, parseFloatFp, fpMul, fpAdd]

lemma amountStepFp_some (d q : DblVal) (p : FpProduct) (hp : p.final_price = some q) :
    amountStepFp (FpNum.val d) p = FpNum.val (dadd d (dmul q p.quantity)) := by
  simp [amountStepFp, hp, parseFloatFp, fpMul, fpAdd]

lemma foldl_amountStepFp_nan (l : List FpProduct) :
    l.foldl amountStepFp FpNum.nan = FpNum.nan := by
  induction l with
  | nil => rfl
  | cons p t ih => rw [List.foldl_cons, amountStepFp_nan, ih]

lemma isNanFp_foldl (l : List FpProduct) (d : DblVal) :
    isNanFp (l.foldl amountStepFp (FpNum.val d)) =
      l.any (fun p => p.final_price.isNone) := by
  induction l generalizing d with
  | nil => rfl
  | cons p t ih =>
      cases hp : p.final_price with
      | none =>
          rw [List.foldl_cons, amountStepFp_none d p hp, foldl_amountStepFp_nan]
          simp [hp, isNanFp]
      | some q =>
          rw [List.foldl_cons, amountStepFp_some d q p hp, ih]
          simp [hp]

set_option maxRecDepth 8000 in
set_option maxHeartbeats 2000000 in
/-- C9, counterexample: the lists of products priced `0.1`, `0.2`, `0.3`
(quantity `1`) and its reversal are permutations of each other, yet under
the program's binary64 arithmetic `calculateOrderAmount` returns
`0.6000000000000001` (= `1351079888211149 * 2^-51`) on the first and `0.6`
(= `5404319552844595 * 2^-53`) on the second: double addition rounds
order-dependently, so the claimed reordering invariance fails. -/
theorem c9_counterexample :
    ([⟨some (ratToDbl 1 10), ratToDbl 1 1⟩, ⟨some (ratToDbl 2 10), ratToDbl 1 1⟩,
        ⟨some (ratToDbl 3 10), ratToDbl 1 1⟩] : List FpProduct).Perm
      [⟨some (ratToDbl 3 10), ratToDbl 1 1⟩, ⟨some (ratToDbl 2 10), ratToDbl 1 1⟩,
        ⟨some (ratToDbl 1 10), ratToDbl 1 1⟩] ∧
    calculateOrderAmountFp
        (some [⟨some (ratToDbl 1 10), ratToDbl 1 1⟩, ⟨some (ratToDbl 2 10), ratToDbl 1 1⟩,
          ⟨some (ratToDbl 3 10), ratToDbl 1 1⟩]) = FpNum.val ⟨1351079888211149, -51⟩ ∧
    calculateOrderAmountFp
        (some [⟨some (ratToDbl 3 10), ratToDbl 1 1⟩, ⟨some (ratToDbl 2 10), ratToDbl 1 1⟩,
          ⟨some (ratToDbl 1 10), ratToDbl 1 1⟩]) = FpNum.val ⟨5404319552844595, -53⟩ ∧
    calculateOrderAmountFp
        (some [⟨some (ratToDbl 1 10), ratToDbl 1 1⟩, ⟨some (ratToDbl 2 10), ratToDbl 1 1⟩,
          ⟨some (ratToDbl 3 10), ratToDbl 1 1⟩]) ≠
      calculateOrderAmountFp
        (some [⟨some (ratToDbl 3 10), ratToDbl 1 1⟩, ⟨some (ratToDbl 2 10), ratToDbl 1 1⟩,
          ⟨some (ratToDbl 1 10), ratToDbl 1 1⟩]) := by
  refine ⟨(List.reverse_perm _).symm, by decide, by decide, by decide⟩

/-- C9, amended: `calculateOrderAmount` returns `0` for an empty or absent
product list, and whether its result is `NaN` is invariant under any
reordering of the products; the numeric value itself is not reordering
invariant under the program's binary64 arithmetic (see the counterexample),
and is invariant exactly in the idealized exact-arithmetic sum. -/
theorem c9_amended :
    calculateOrderAmountFp none = FpNum.val dblZero ∧
    calculateOrderAmountFp (some []) = FpNum.val dblZero ∧
    (∀ l₁ l₂ : List FpProduct, l₁.Perm l₂ →
      isNanFp (calculateOrderAmountFp (some l₁)) =
        isNanFp (calculateOrderAmountFp (some l₂))) ∧
    (∀ l₁ l₂ : List OrderProduct, l₁.Perm l₂ →
      calculateOrderAmount (some l₁) = calculateOrderAmount (some l₂)) := by
  refine ⟨rfl, rfl, fun l₁ l₂ h => ?_, fun l₁ l₂ h => ?_⟩
  · rw [calculateOrderAmountFp, calculateOrderAmountFp, isNanFp_foldl, isNanFp_foldl,
      perm_any_eq l₁ l₂ h]
  · have e₁ := foldl_amountStep_closed l₁ 0
    have e₂ := foldl_amountStep_closed l₂ 0
    have hany := perm_any_eq l₁ l₂ h (fun p => p.final_price.isNone)
    have hsum : (l₁.map (fun p => p.final_price.getD 0 * p.quantity)).sum =
        (l₂.map (fun p => p.final_price.getD 0 * p.quantity)).sum :=
      (h.map (fun p => p.final_price.getD 0 * p.quantity)).sum_eq
    simp only [calculateOrderAmount, e₁, e₂, hany, hsum]

/-- Witness for C9 amended at concrete two-element swaps, in both the
binary64 model (`NaN`-status invariance) and the exact model. -/
theorem c9_amended_witness :
    isNanFp (calculateOrderAmountFp
        (some [⟨some (ratToDbl 1 10), ratToDbl 1 1⟩, ⟨none, ratToDbl 1 1⟩])) =
      isNanFp (calculateOrderAmountFp
        (some [⟨none, ratToDbl 1 1⟩, ⟨some (ratToDbl 1 10), ratToDbl 1 1⟩])) ∧
    calculateOrderAmount (some [⟨some 2, 3⟩, ⟨none, 1⟩]) =
      calculateOrderAmount (some [⟨none, 1⟩, ⟨some 2, 3⟩]) :=
  ⟨c9_amended.2.2.1 _ _ (List.Perm.swap _ _ _),
   c9_amended.2.2.2 _ _ (List.Perm.swap _ _ _)⟩

/-- The `statusVariants` lookup table of the Orders page, mapping a backend
status code (or legacy status string) to a `(variant, label)` pair; `none`
models a key missing from the JavaScript object. -/
def statusVariants : String → Option (String × String)
  | "OS" => some ("outline", "Processing")
  | "OB" => some ("secondary", "Ordered")
  | "OC" => some ("destructive", "Cancelled")
  | "PU" => some ("outline", "Unpaid")
  | "PD" => some ("secondary", "Paid")
  | "SU" => some ("outline", "Unshipped")
  | "SP" => some ("secondary", "Processing")
  | "SS" => some ("default", "Shipped")
  | "RA" => some ("outline", "Awaiting Return")
  | "RR" => some ("default", "Return Requested")
  | "RC" => some ("secondary", "Return Completed")
  | "RS" => some ("secondary", "Return Shipped")
  | "RD" => some ("destructive", "Return Denied")
  | "DP" => some ("outline", "Dispute Pending")
  | "DD" => some ("destructive", "Dispute Denied")
  | "DN" => some ("default", "No Dispute")
  | "AD" => some ("secondary", "Dispute Accepted")
  | "shipped" => some ("default", "Shipped")
  | "processing" => some ("secondary", "Processing")
  | "delivered" => some ("default", "Delivered")
  | "pending" => some ("outline", "Pending")
  | "paid" => some ("secondary", "Paid")
  | "cancelled" => some ("destructive", "Cancelled")
  | "awaiting-payment" => some ("outline", "Awaiting Payment")
  | "ticketed" => some ("secondary", "Ticketed")
  | "abnormal" => some ("destructive", "Abnormal")
  | _ => none

/-- The status fields of an order as read by `getDisplayStatus`.  A missing
field is modelled by the empty string, which is exactly as falsy in the
JavaScript guards as `undefined`. -/
structure OrderStatusFields where
  status : String
  status_payment : String
  status_return : String
  status_dispute : String
  status_shipping : String
deriving DecidableEq, Repr

/-- `getDisplayStatus` from the Orders page, returning the
`(label, variant)` pair shown in the status badge.  Each guarded lookup
falls through to the next rule when the guard fails or the table lookup
misses, mirroring the source's early-return structure. -/
def getDisplayStatus (order : OrderStatusFields) : String × String :=
  if order.status == "OC" then ("Cancelled", "destructive")
  else if order.status_payment == "PU" then ("Awaiting Payment", "outline")
  else
    match
      (if order.status_return != "" && order.status_return != "RN"
       then statusVariants order.status_return else none) with
    | some (v, lbl) => (lbl, v)
    | none =>
      match
        (if order.status_dispute != "" && order.status_dispute != "DN"
         then statusVariants order.status_dispute else none) with
      | some (v, lbl) => (lbl, v)
      | none =>
        match
          (if order.status_shipping != ""
           then statusVariants order.status_shipping else none) with
        | some (v, lbl) => (lbl, v)
        | none =>
          match statusVariants order.status with
          | some (v, lbl) => (lbl, v)
          | none => ("Processing", "secondary")

/-- C6: for every order whose overall `status` is the cancelled code `OC`,
`getDisplayStatus` returns the label `"Cancelled"` with the `destructive`
variant, whatever the payment, return, dispute and shipping status fields
hold. -/
theorem c6_cancelled_priority (pay ret disp ship : String) :
    getDisplayStatus ⟨"OC", pay, ret, disp, ship⟩ = ("Cancelled", "destructive") := by
  simp [getDisplayStatus]

/-- Does `n` occur as a prefix of `h` (character lists)? -/
def listStartsWith : List Char → List Char → Bool
  | [], _ => true
  | _ :: _, [] => false
  | a :: as, b :: bs => a == b && listStartsWith as bs

/-- Does `n` occur as a contiguous run anywhere inside `h`?  This is the
semantics of JavaScript `hay.includes(needle)` and of an unanchored regex
search for a literal. -/
def listHasSub (n : List Char) : List Char → Bool
  | [] => listStartsWith n []
  | b :: bs => listStartsWith n (b :: bs) || listHasSub n bs

/-- JavaScript `hay.includes(needle)`. -/
def strHasSub (needle hay : String) : Bool :=
  listHasSub needle.data hay.data

lemma listStartsWith_self_append (n r : List Char) :
    listStartsWith n (n ++ r) = true := by
  induction n with
  | nil => rfl
  | cons a as ih => simp [listStartsWith, ih]

lemma listHasSub_of_startsWith (n h : List Char) (hs : listStartsWith n h = true) :
    listHasSub n h = true := by
  cases h with
  | nil => simpa [listHasSub] using hs
  | cons b bs => simp [listHasSub, hs]

lemma listHasSub_cons_of (n : List Char) (c : Char) (h : List Char)
    (hh : listHasSub n h = true) : listHasSub n (c :: h) = true := by
  simp [listHasSub, hh]

lemma listHasSub_append_left (n pre h : List Char) (hh : listHasSub n h = true) :
    listHasSub n (pre ++ h) = true := by
  induction pre with
  | nil => simpa using hh
  | cons c cs ih => simpa using listHasSub_cons_of n c (cs ++ h) ih

lemma listStartsWith_append_right (n h r : List Char) (hs : listStartsWith n h = true) :
    listStartsWith n (h ++ r) = true := by
  induction n generalizing h with
  | nil => rfl
  | cons a as ih =>
      cases h with
      | nil => simp [listStartsWith] at hs
      | cons b bs =>
          simp only [listStartsWith, Bool.and_eq_true] at hs
          simp [listStartsWith, hs.1, ih bs hs.2]

lemma listHasSub_append_right (n h r : List Char) (hh : listHasSub n h = true) :
    listHasSub n (h ++ r) = true := by
  induction h with
  | nil =>
      simp only [listHasSub] at hh
      exact listHasSub_of_startsWith n r (listStartsWith_append_right n [] r hh)
  | cons b bs ih =>
      simp only [listHasSub, Bool.or_eq_true] at hh
      rcases hh with hs | hh
      · exact listHasSub_of_startsWith n _ (by simpa using listStartsWith_append_right n (b :: bs) r hs)
      · simpa using listHasSub_cons_of n b (bs ++ r) (ih hh)

lemma listHasSub_self_append (n r : List Char) : listHasSub n (n ++ r) = true :=
  listHasSub_of_startsWith n (n ++ r) (listStartsWith_self_append n r)

/-- The three credential keys held in browser local storage
(`accessToken`, `refreshToken`, `user`); `none` models an absent key. -/
structure LocalStore where
  accessToken : Option String
  refreshToken : Option String
  userProfile : Option String
deriving DecidableEq, Repr

/-- Local storage with every credential key removed. -/
def clearedStore : LocalStore := ⟨none, none, none⟩

/-- The shape of an axios error as inspected by the response interceptor:
whether a response was received, its HTTP status, and the error message. -/
structure AxiosError where
  hasResponse : Bool
  status : Nat
  message : String
deriving DecidableEq, Repr

/-- `responseErrorInterceptor` from `src/utils/api.ts`, as a transition on
the pair (local storage, current navigation path).  Branches in source
order: network errors (no response) and errors whose message mentions
`Network Error` or `CORS` only toast; a 401 clears the three stored
credential keys and redirects to the login route unless already there; 422,
5xx and all remaining errors only toast. -/
def responseErrorInterceptor (e : AxiosError) (store : LocalStore) (path : String) :
    LocalStore × String :=
  if e.hasResponse == false then (store, path)
  else if strHasSub "Network Error" e.message || strHasSub "CORS" e.message then (store, path)
  else if e.status == 401 then
    (clearedStore, if path != "/auth/login" then "/auth/login" else path)
  else if e.status == 422 then (store, path)
  else if 500 ≤ e.status then (store, path)
  else (store, path)

/-- The authenticated call sites of the facade.  All of them go through one
of the three axios clients that install `responseErrorInterceptor`, except
the request inside `orderApi.getOrderDetails`, which calls the bare
`axios.get` with a manually attached bearer token. -/
inductive ApiCallSite where
  | getAllOrdersCall
  | getOrderByIdCall
  | getConfirmedOrdersCall
  | getWaitForShippingOrdersCall
  | getUnpaidOrdersCall
  | getAbnormalOrdersCall
  | getTicketedOrdersCall
  | getCancelledOrdersCall
  | getOrderDetailsRawAxiosCall
  | uploadOrdersCall
  | createDisputeCall
  | getDisputesByUserCall
  | getBillingHistoryCall
  | getWalletBalanceCall
  | getCustomerBillsCall
deriving DecidableEq, Repr

/-- Whether the call site's requests pass through an axios instance that
installed `responseErrorInterceptor` (`userApi`, `orderApiClient` or
`billApiClient`). -/
def viaInterceptedClient : ApiCallSite → Bool
  | ApiCallSite.getOrderDetailsRawAxiosCall => false
  | _ => true

/-- The state transition an HTTP error response causes at a call site: the
interceptor runs only for the intercepted clients. -/
def onHttpError (c : ApiCallSite) (e : AxiosError) (store : LocalStore) (path : String) :
    LocalStore × String :=
  if viaInterceptedClient c then responseErrorInterceptor e store path else (store, path)

/-- C4, counterexample: the raw `axios.get` inside
`orderApi.getOrderDetails` bypasses the interceptor, so a 401 on that
authenticated call leaves all three stored credentials in place and does
not navigate to the login route. -/
theorem c4_counterexample :
    onHttpError ApiCallSite.getOrderDetailsRawAxiosCall
      ⟨true, 401, "Request failed with status code 401"⟩
      ⟨some "tok", some "ref", some "usr"⟩ "/orders" =
      (⟨some "tok", some "ref", some "usr"⟩, "/orders") ∧
    (⟨some "tok", some "ref", some "usr"⟩ : LocalStore) ≠ clearedStore ∧
    "/orders" ≠ "/auth/login" := by
  refine ⟨rfl, by decide, by decide⟩

/-- C4, amended: every authenticated call routed through one of the three
configured axios clients that receives a 401 response (whose message, as
for every real axios HTTP-status error, does not mention `Network Error` or
`CORS`) ends with all three credential keys removed and the navigation
target equal to the login route; the raw axios request inside
`getOrderDetails` is exempt. -/
theorem c4_amended (c : ApiCallSite) (e : AxiosError) (store : LocalStore) (path : String)
    (hc : viaInterceptedClient c = true)
    (hr : e.hasResponse = true)
    (hn : strHasSub "Network Error" e.message = false)
    (hco : strHasSub "CORS" e.message = false)
    (hs : e.status = 401) :
    onHttpError c e store path = (clearedStore, "/auth/login") := by
  simp only [onHttpError, hc, if_true, responseErrorInterceptor, hr, hn, hco, hs]
  by_cases hp : path = "/auth/login" <;> simp [hp]

/-- Witness for C4 amended: a 401 on `getAllOrders` wipes the credentials
and redirects. -/
theorem c4_amended_witness :
    onHttpError ApiCallSite.getAllOrdersCall
      ⟨true, 401, "Request failed with status code 401"⟩
      ⟨some "tok", some "ref", some "usr"⟩ "/orders" = (clearedStore, "/auth/login") :=
  c4_amended ApiCallSite.getAllOrdersCall _ _ _ rfl rfl (by decide) (by decide) rfl

/-- An order as inspected by the lookup code: `order_id` after
`.toString()`, and the optional `order_serial`. -/
structure JOrder where
  order_id : String
  order_serial : Option String
deriving DecidableEq, Repr

/-- The shapes of `response.data` that `getOrderDetails` distinguishes: an
object with an `orders` array, a bare array, a plain object (whose
`order_id` may or may not be truthy), or anything else. -/
inductive RespData where
  | listWrapped : List JOrder → RespData
  | bareList : List JOrder → RespData
  | singleObj : JOrder → RespData
  | other : RespData
deriving DecidableEq, Repr

/-- The linear search of `getOrderDetails`:
`orders.find(o => o.order_id.toString() === orderId.toString() || o.order_serial === orderId.toString())`. -/
def findOrderIn (orders : List JOrder) (orderId : String) : Option JOrder :=
  orders.find? (fun o => o.order_id == orderId || o.order_serial == some orderId)

/-- The direct single-resource endpoint used by `orderApi.getOrderById`. -/
def orderByIdEndpoint (orderId : String) : String :=
  "/orders/order/" ++ orderId

/-- The endpoint list `getOrderDetails` walks, in source order. -/
def getOrderDetailsEndpoints : List String :=
  ["/orders/get-all-orders", "/orders"]

/-- The generic failure message thrown when every endpoint was tried and no
error was caught. -/
def allEndpointsFailedMsg : String :=
  "Failed to fetch order details after trying all endpoints"

/-- Outcome of one loop iteration of `getOrderDetails` for one endpoint:
the order was found and returned, the iteration fell through without a
result, or the request threw (updating the remembered last error). -/
inductive StepOutcome where
  | found : JOrder → StepOutcome
  | noMatch : StepOutcome
  | failed : String → StepOutcome
deriving DecidableEq, Repr

/-- One loop iteration of `getOrderDetails`: call the endpoint; on a list
response search it (a miss falls through), on a plain object return it when
`order_id` is truthy, otherwise fall through; a thrown error is recorded. -/
def tryOne (backend : String → Except String RespData) (orderId ep : String) : StepOutcome :=
  match backend ep with
  | Except.error e => StepOutcome.failed e
  | Except.ok (RespData.listWrapped orders) =>
      match findOrderIn orders orderId with
      | some o => StepOutcome.found o
      | none => StepOutcome.noMatch
  | Except.ok (RespData.bareList orders) =>
      match findOrderIn orders orderId with
      | some o => StepOutcome.found o
      | none => StepOutcome.noMatch
  | Except.ok (RespData.singleObj o) =>
      if o.order_id != "" then StepOutcome.found o else StepOutcome.noMatch
  | Except.ok RespData.other => StepOutcome.noMatch

/-- The endpoint loop of `getOrderDetails`, returning the result together
with the list of endpoints actually requested. `lastErr` is the `error`
variable of the source, latched by each catch and thrown (or replaced by
the generic message) once the loop is exhausted. -/
def tryEndpoints (backend : String → Except String RespData) (orderId : String) :
    List String → Option String → Except String JOrder × List String
  | [], lastErr => (Except.error (lastErr.getD allEndpointsFailedMsg), [])
  | ep :: rest, lastErr =>
      match tryOne backend orderId ep with
      | StepOutcome.found o => (Except.ok o, [ep])
      | StepOutcome.noMatch =>
          let p := tryEndpoints backend orderId rest lastErr
          (p.1, ep :: p.2)
      | StepOutcome.failed e =>
          let p := tryEndpoints backend orderId rest (some e)
          (p.1, ep :: p.2)

/-- `orderApi.getOrderDetails`: walk the two listing endpoints and return
the first hit, else the latched error. -/
def getOrderDetails (backend : String → Except String RespData) (orderId : String) :
    Except String JOrder :=
  (tryEndpoints backend orderId getOrderDetailsEndpoints none).1

/-- The endpoints `getOrderDetails` actually requests. -/
def getOrderDetailsTrace (backend : String → Except String RespData) (orderId : String) :
    List String :=
  (tryEndpoints backend orderId getOrderDetailsEndpoints none).2

/-- `orderApi.getOrderById`: a single request to the direct single-resource
endpoint; a non-object response body is rejected, everything else is
returned as-is, and a failure propagates with no fallback to any listing
endpoint. -/
def getOrderById (backend : String → Except String RespData) (orderId : String) :
    Except String RespData :=
  match backend (orderByIdEndpoint orderId) with
  | Except.error e => Except.error e
  | Except.ok RespData.other => Except.error "API returned invalid data format"
  | Except.ok d => Except.ok d

/-- The endpoints `getOrderById` requests: exactly the direct one. -/
def getOrderByIdTrace (orderId : String) : List String :=
  [orderByIdEndpoint orderId]

lemma orderByIdEndpoint_ne_listing (orderId : String) :
    orderByIdEndpoint orderId ≠ "/orders/get-all-orders" ∧
    orderByIdEndpoint orderId ≠ "/orders" := by
  constructor <;> intro h <;>
  · have hd := congrArg String.data h
    simp only [orderByIdEndpoint, String.data_append] at hd
    have ht := congrArg (List.take 14) hd
    rw [List.take_left' (by decide)] at ht
    revert ht
    decide

lemma tryEndpoints_trace_subset (backend : String → Except String RespData)
    (orderId : String) (eps : List String) (lastErr : Option String) :
    ∀ ep ∈ (tryEndpoints backend orderId eps lastErr).2, ep ∈ eps := by
  induction eps generalizing lastErr with
  | nil => intro ep hep; simp [tryEndpoints] at hep
  | cons e rest ih =>
      intro ep hep
      simp only [tryEndpoints] at hep
      cases h : tryOne backend orderId e with
      | found o => simp [h] at hep; simp [hep]
      | noMatch =>
          simp only [h] at hep
          rcases List.mem_cons.mp hep with h1 | h1
          · simp [h1]
          · exact List.mem_cons_of_mem _ (ih _ _ h1)
      | failed msg =>
          simp only [h] at hep
          rcases List.mem_cons.mp hep with h1 | h1
          · simp [h1]
          · exact List.mem_cons_of_mem _ (ih _ _ h1)

/-- C3, counterexample: with a backend on which every request throws, the
lookup `getOrderDetails "42"` requests the two listing endpoints and
nothing else; in particular its first request is not the direct
single-resource endpoint `/orders/order/42`, and that endpoint is never
requested at all, contradicting the claimed direct-endpoint-first tiering. -/
theorem c3_counterexample :
    getOrderDetailsTrace (fun _ => Except.error "network down") "42" =
      ["/orders/get-all-orders", "/orders"] ∧
    (getOrderDetailsTrace (fun _ => Except.error "network down") "42").head? ≠
      some (orderByIdEndpoint "42") ∧
    orderByIdEndpoint "42" ∉
      getOrderDetailsTrace (fun _ => Except.error "network down") "42" := by
  refine ⟨rfl, by decide, by decide⟩

/-- C3, amended: the tiered lookup `getOrderDetails` never requests the
direct single-resource endpoint; it requests only the listing endpoints
`/orders/get-all-orders` then `/orders`, returns the first element of a
successful listing response whose `order_id` or `order_serial` equals the
requested id (short-circuiting the remaining endpoint), and reports failure
only after both endpoints were tried, propagating the last error
encountered.  The separate `getOrderById` requests exactly the direct
endpoint, with no listing fallback. -/
theorem c3_amended (backend : String → Except String RespData) (orderId : String) :
    (orderByIdEndpoint orderId ∉ getOrderDetailsTrace backend orderId) ∧
    (∀ ep ∈ getOrderDetailsTrace backend orderId, ep ∈ getOrderDetailsEndpoints) ∧
    (∀ e₁ e₂ : String, backend "/orders/get-all-orders" = Except.error e₁ →
      backend "/orders" = Except.error e₂ →
      getOrderDetails backend orderId = Except.error e₂ ∧
      getOrderDetailsTrace backend orderId = ["/orders/get-all-orders", "/orders"]) ∧
    (∀ (orders : List JOrder) (o : JOrder),
      backend "/orders/get-all-orders" = Except.ok (RespData.listWrapped orders) →
      findOrderIn orders orderId = some o →
      getOrderDetails backend orderId = Except.ok o ∧
      getOrderDetailsTrace backend orderId = ["/orders/get-all-orders"]) ∧
    (getOrderByIdTrace orderId = [orderByIdEndpoint orderId]) := by
  refine ⟨?_, ?_, ?_, ?_, rfl⟩
  · intro hmem
    have := tryEndpoints_trace_subset backend orderId getOrderDetailsEndpoints none _ hmem
    simp only [getOrderDetailsEndpoints, List.mem_cons, List.not_mem_nil, or_false,
      List.mem_singleton] at this
    rcases this with h | h
    · exact (orderByIdEndpoint_ne_listing orderId).1 h
    · exact (orderByIdEndpoint_ne_listing orderId).2 h
  · exact tryEndpoints_trace_subset backend orderId getOrderDetailsEndpoints none
  · intro e₁ e₂ h₁ h₂
    simp [getOrderDetails, getOrderDetailsTrace, getOrderDetailsEndpoints, tryEndpoints,
      tryOne, h₁, h₂]
  · intro orders o h₁ h₂
    simp [getOrderDetails, getOrderDetailsTrace, getOrderDetailsEndpoints, tryEndpoints,
      tryOne, h₁, h₂]

/-- Witness for C3 amended: a backend whose listing endpoints both fail
with distinguishable errors propagates the second error, and a backend
whose first listing endpoint contains the order returns it immediately. -/
theorem c3_amended_witness :
    getOrderDetails
      (fun ep => if ep == "/orders/get-all-orders"
                 then Except.error "first error" else Except.error "second error") "42" =
      Except.error "second error" ∧
    getOrderDetails
      (fun ep => if ep == "/orders/get-all-orders"
                 then Except.ok (RespData.listWrapped [⟨"42", none⟩])
                 else Except.error "unreached") "42" =
      Except.ok ⟨"42", none⟩ :=
  ⟨((c3_amended _ "42").2.2.1 "first error" "second error" rfl rfl).1,
   ((c3_amended _ "42").2.2.2.1 [⟨"42", none⟩] ⟨"42", none⟩ rfl (by decide)).1⟩

/-- The whitespace characters relevant to JavaScript `trim` on this data. -/
def isWhiteChar (c : Char) : Bool :=
  c == ' ' || c == '\t' || c == '\n' || c == '\r'

/-- JavaScript `s.trim()`. -/
def jsTrim (s : String) : String :=
  String.mk (((s.data.dropWhile isWhiteChar).reverse.dropWhile isWhiteChar).reverse)

/-- JavaScript `s.toLowerCase()` (ASCII, which is all the CSV code meets). -/
def jsToLower (s : String) : String :=
  String.mk (s.data.map Char.toLower)

/-- JavaScript `s.split(sep)` for a single-character separator, on
character lists: `"".split(",")` is `[""]`, separators at the ends produce
empty fields. -/
def splitOnChar (sep : Char) : List Char → List (List Char)
  | [] => [[]]
  | c :: rest =>
      let r := splitOnChar sep rest
      if c == sep then [] :: r
      else
        match r with
        | h :: t => (c :: h) :: t
        | [] => [[c]]

/-- JavaScript `s.split(sep)` producing strings. -/
def jsSplit (sep : Char) (s : String) : List String :=
  (splitOnChar sep s.data).map String.mk

/-- A regex `\w` character: ASCII letter, digit or underscore. -/
def charIsWord (c : Char) : Bool :=
  c.isAlphanum || c == '_'

/-- Whether the regex `\d+-\d+-\d+` matches at the start of the character
list (the classes `\d` and `-` are disjoint, so greedy matching is
deterministic). -/
def matchDDDAt (cs : List Char) : Bool :=
  match cs.span Char.isDigit with
  | (d1, '-' :: r1) =>
      !d1.isEmpty &&
        (match r1.span Char.isDigit with
         | (d2, '-' :: r2) => !d2.isEmpty && !(r2.takeWhile Char.isDigit).isEmpty
         | _ => false)
  | _ => false

/-- JavaScript `s.match(/\d+-\d+-\d+/) !== null`: the pattern matches at
some position. -/
def searchDDD (s : String) : Bool :=
  s.data.tails.any matchDDDAt

/-- Whether the regex `\w+-\d+` matches at the start of the character list
(`-` is not a `\w` character, so greedy matching is deterministic). -/
def matchWDAt (cs : List Char) : Bool :=
  match cs.span charIsWord with
  | (w, '-' :: r) => !w.isEmpty && !(r.takeWhile Char.isDigit).isEmpty
  | _ => false

/-- JavaScript `s.match(/\w+-\d+/) !== null`. -/
def searchWD (s : String) : Bool :=
  s.data.tails.any matchWDAt

/-- JavaScript `s.match(/^\d+$/) !== null`: non-empty and all digits. -/
def fullDigits (s : String) : Bool :=
  !s.data.isEmpty && s.data.all Char.isDigit

/-- The required CSV fields of `handleUpload`. -/
def requiredFields : List String :=
  ["order-id", "sku", "quantity-purchased", "recipient-name", "ship-address-1",
   "ship-city", "ship-state", "ship-postal-code", "order-item-id"]

/-- The expected 15-column header of `handleUpload`. -/
def expectedHeader : List String :=
  ["order-id", "ship-phone", "sku", "quantity-purchased", "recipient-name",
   "ship-address-1", "ship-address-2", "ship-address-3", "ship-city", "ship-state",
   "ship-postal-code", "consumer_price", "order-item-id", "product-name", "shipping-price"]

/-- The essential fields checked when the data-row column count differs
from the header's. -/
def essentialFields : List String :=
  ["order-id", "sku", "quantity-purchased", "recipient-name"]

/-- `normalizeFieldName` of `handleUpload`: any field containing both
`ship` and `phone` becomes the canonical `ship-phone`. -/
def normalizeFieldName (field : String) : String :=
  if strHasSub "ship" field && strHasSub "phone" field then "ship-phone" else field

/-- The header fields: first line trimmed, split on commas, each field
trimmed and lower-cased. -/
def headerFieldsOf (line0 : String) : List String :=
  (jsSplit ',' (jsTrim line0)).map (fun f => jsToLower (jsTrim f))

/-- The header fields after `normalizeFieldName`. -/
def normalizedHeaderOf (line0 : String) : List String :=
  (headerFieldsOf line0).map normalizeFieldName

/-- The required fields missing from the normalized header. -/
def missingFieldsOf (line0 : String) : List String :=
  requiredFields.filter (fun f => !((normalizedHeaderOf line0).contains (jsToLower f)))

/-- The first data row: second line trimmed, split on commas. -/
def dataValuesOf (line1 : String) : List String :=
  jsSplit ',' (jsTrim line1)

/-- JavaScript `array.join(", ")`. -/
def joinComma : List String → String
  | [] => ""
  | [x] => x
  | x :: xs => x ++ ", " ++ joinComma xs

/-- The `canProceed` computation of `handleUpload`: every essential field
has an index in the header (`indexOf` hit, modelled by `< length`) that is
also within the bounds of the data row. -/
def canProceedOn (headerFields values : List String) : Bool :=
  essentialFields.all (fun field =>
    let index := headerFields.indexOf field
    decide (index < headerFields.length) && decide (index < values.length))

/-- The soft order-id format check: when `order-id` resolves to an index
within the data row, warn unless the value matches `\d+-\d+-\d+` or
`\w+-\d+`. -/
def orderIdWarningOn (headerFields values : List String) : List String :=
  let orderIdIndex := headerFields.indexOf "order-id"
  if decide (orderIdIndex < headerFields.length) && decide (orderIdIndex < values.length) then
    let orderId := values.getD orderIdIndex ""
    if !(searchDDD orderId) && !(searchWD orderId) then
      ["Order ID format may not be recognized. Expected format: XXX-XXXXXXX-XXXXXXX"]
    else []
  else []

/-- The soft SKU check: when `sku` resolves to an index within the data
row, warn unless the value matches `^\d+$`. -/
def skuWarningOn (headerFields values : List String) : List String :=
  let skuIndex := headerFields.indexOf "sku"
  if decide (skuIndex < headerFields.length) && decide (skuIndex < values.length) then
    if !(fullDigits (values.getD skuIndex "")) then ["SKU should be a numeric value"] else []
  else []

/-- Result of the client-side CSV content validation: the blocking error
(if any), the warnings toasted along the way, and whether the upload call
is made. -/
structure CsvCheck where
  blockingError : Option String
  warnings : List String
  uploads : Bool
deriving DecidableEq, Repr

/-- The blocking message for a mismapped essential field.  The source text
uses the contraction of `cannot`; it is spelled out here. -/
def essentialErrMsg : String :=
  "Essential fields (order-id, sku, quantity) cannot be mapped correctly. Please check your CSV format."

/-- The header-column-count warning. -/
def headerCountWarning (n : Nat) : String :=
  "Your CSV header has " ++ toString n ++ " columns, but we recommend " ++
    toString expectedHeader.length ++ " columns for best results. Download our template for reference."

/-- The data-row column-count mismatch warning. -/
def mismatchWarning (h v : Nat) : String :=
  "Warning: Column count mismatch between header (" ++ toString h ++ ") and data (" ++
    toString v ++ "). The system will attempt to map fields based on header positions."

/-- The content validation of `handleUpload` given the first two lines:
missing required fields block; a header column count other than 15 warns;
a data-row/header column-count mismatch blocks when the essential fields
cannot be mapped and warns otherwise; then the two soft format checks may
warn; absent a blocking error the upload call is made. -/
def csvCheckOf (line0 line1 : String) : CsvCheck :=
  let headerFields := headerFieldsOf line0
  let missingFields := missingFieldsOf line0
  if 0 < missingFields.length then
    { blockingError := some ("CSV missing required fields: " ++ joinComma missingFields),
      warnings := [], uploads := false }
  else
    let w1 := if headerFields.length != expectedHeader.length
              then [headerCountWarning headerFields.length] else []
    let values := dataValuesOf line1
    if values.length != headerFields.length && !(canProceedOn headerFields values) then
      { blockingError := some essentialErrMsg, warnings := w1, uploads := false }
    else
      let w2 := if values.length != headerFields.length
                then [mismatchWarning headerFields.length values.length] else []
      { blockingError := none,
        warnings := w1 ++ w2 ++ orderIdWarningOn headerFields values ++
          skuWarningOn headerFields values,
        uploads := true }

/-- `handleUpload` content validation on the whole file text: fewer than
two lines block immediately, otherwise the header and the first data row
are checked. -/
def validateCsvContent (content : String) : CsvCheck :=
  match jsSplit '\n' content with
  | line0 :: line1 :: _ => csvCheckOf line0 line1
  | _ => { blockingError := some "CSV file must contain header row and at least one data row",
           warnings := [], uploads := false }

/-- The template header written by `downloadTemplate`. -/
def templateHeader : String :=
  "order-id,ship-phone,sku,quantity-purchased,recipient-name,ship-address-1,ship-address-2,ship-address-3,ship-city,ship-state,ship-postal-code,consumer_price,order-item-id,product-name,shipping-price"

/-- The sample data row written by `downloadTemplate`. -/
def templateSampleRow : String :=
  "123-4567890-1234567,9876543210,12345678,1,John Doe,123 Main St,Apt 456,Near Landmark,New York,NY,10001,29.99,01234567891234,Sample Product,4.99"

/-- The CSV content `downloadTemplate` produces: `[header, sampleRow].join(backslash-n)`. -/
def templateCsvContent : String :=
  templateHeader ++ "\n" ++ templateSampleRow

lemma strHasSub_joinComma (x : String) : ∀ l : List String, x ∈ l →
    strHasSub x (joinComma l) = true := by
  intro l
  induction l with
  | nil => intro h; simp at h
  | cons a rest ih =>
      intro h
      cases rest with
      | nil =>
          simp only [List.mem_singleton] at h
          subst h
          simpa [strHasSub, joinComma] using listHasSub_self_append x.data []
      | cons b bs =>
          rcases List.mem_cons.mp h with h1 | h1
          · subst h1
            simp only [strHasSub, joinComma, String.data_append]
            rw [List.append_assoc]
            exact listHasSub_self_append x.data _
          · simp only [strHasSub, joinComma, String.data_append]
            exact listHasSub_append_left _ _ _
              (by simpa [strHasSub] using ih h1)

set_option maxRecDepth 8000 in
/-- C8: the CSV produced by `downloadTemplate` passes the content
validation of `handleUpload` with no blocking error and zero warnings, and
the upload call is made. -/
theorem c8_template_roundtrip :
    validateCsvContent templateCsvContent =
      { blockingError := none, warnings := [], uploads := true } := by
  decide

set_option maxRecDepth 4000 in
/-- C7, counterexample: the CSV
`order-id,sku,quantity-purchased,recipient-name` over `1,2,3,4,5` has
`sku` in its header, a data-row column count (5) different from the
header's (4), and all four essential fields resolving to in-bounds
indices — yet validation produces a blocking error (the remaining required
fields are missing) and no upload call is made, contrary to the claim. -/
theorem c7_counterexample :
    ("sku" ∈ normalizedHeaderOf "order-id,sku,quantity-purchased,recipient-name") ∧
    (dataValuesOf "1,2,3,4,5").length ≠
      (headerFieldsOf "order-id,sku,quantity-purchased,recipient-name").length ∧
    canProceedOn (headerFieldsOf "order-id,sku,quantity-purchased,recipient-name")
      (dataValuesOf "1,2,3,4,5") = true ∧
    (validateCsvContent "order-id,sku,quantity-purchased,recipient-name\n1,2,3,4,5").uploads
      = false ∧
    (validateCsvContent
      "order-id,sku,quantity-purchased,recipient-name\n1,2,3,4,5").blockingError.isSome
      = true := by
  decide

/-- C7, amended: for a CSV with a header line and a data line, (1) if the
normalized header lacks `sku`, validation blocks with an error message
naming `sku` and no upload call is made; (2) if every required field is
present in the normalized header, the data-row column count differs from
the header's, and all four essential fields resolve to in-bounds indices,
validation emits at least one non-blocking warning, produces no blocking
error, and the upload call is made. -/
theorem c7_amended :
    (∀ content line0 line1 rest, jsSplit '\n' content = line0 :: line1 :: rest →
      "sku" ∉ normalizedHeaderOf line0 →
      (validateCsvContent content).uploads = false ∧
      ∃ msg, (validateCsvContent content).blockingError = some msg ∧
        strHasSub "sku" msg = true) ∧
    (∀ content line0 line1 rest, jsSplit '\n' content = line0 :: line1 :: rest →
      missingFieldsOf line0 = [] →
      (dataValuesOf line1).length ≠ (headerFieldsOf line0).length →
      canProceedOn (headerFieldsOf line0) (dataValuesOf line1) = true →
      (validateCsvContent content).blockingError = none ∧
      (validateCsvContent content).uploads = true ∧
      (validateCsvContent content).warnings ≠ []) := by
  constructor
  · intro content line0 line1 rest hsplit hsku
    have hv : validateCsvContent content = csvCheckOf line0 line1 := by
      simp [validateCsvContent, hsplit]
    have hmem : "sku" ∈ missingFieldsOf line0 := by
      simp only [missingFieldsOf, List.mem_filter]
      refine ⟨by simp [requiredFields], ?_⟩
      rw [show jsToLower "sku" = "sku" from rfl]
      simp only [List.contains, Bool.not_eq_true']
      rw [Bool.eq_false_iff]
      intro helem
      exact hsku (List.elem_iff.mp helem)
    have hlen : 0 < (missingFieldsOf line0).length := by
      cases hm : missingFieldsOf line0 with
      | nil => rw [hm] at hmem; simp at hmem
      | cons c cs => simp [hm]
    rw [hv]
    refine ⟨by simp [csvCheckOf, if_pos hlen], ?_⟩
    refine ⟨"CSV missing required fields: " ++ joinComma (missingFieldsOf line0),
      by simp [csvCheckOf, if_pos hlen], ?_⟩
    simp only [strHasSub, String.data_append]
    exact listHasSub_append_left _ _ _
      (by simpa [strHasSub] using strHasSub_joinComma "sku" _ hmem)
  · intro content line0 line1 rest hsplit hmiss hcount hcan
    have hv : validateCsvContent content = csvCheckOf line0 line1 := by
      simp [validateCsvContent, hsplit]
    have hbne : ((dataValuesOf line1).length != (headerFieldsOf line0).length) = true :=
      bne_iff_ne.mpr hcount
    rw [hv]
    refine ⟨by simp [csvCheckOf, hmiss, hbne, hcan], by simp [csvCheckOf, hmiss, hbne, hcan], ?_⟩
    simp only [csvCheckOf, hmiss, List.length_nil, lt_irrefl, if_false, hbne, hcan,
      Bool.not_true, Bool.and_false, Bool.false_eq_true, if_true]
    intro hnil
    have hlen := congrArg List.length hnil
    simp [List.length_append] at hlen

set_option maxRecDepth 8000 in
/-- Witness for C7 amended: a header lacking `sku` blocks with a message
naming it, and a CSV with all required fields present plus a longer data
row warns and uploads. -/
theorem c7_amended_witness :
    ((validateCsvContent "order-id,quantity-purchased\nfoo,bar").uploads = false ∧
      ∃ msg,
        (validateCsvContent "order-id,quantity-purchased\nfoo,bar").blockingError = some msg ∧
        strHasSub "sku" msg = true) ∧
    ((validateCsvContent "order-id,sku,quantity-purchased,recipient-name,ship-address-1,ship-city,ship-state,ship-postal-code,order-item-id\na,b,c,d,e,f,g,h,i,j").blockingError = none ∧
      (validateCsvContent "order-id,sku,quantity-purchased,recipient-name,ship-address-1,ship-city,ship-state,ship-postal-code,order-item-id\na,b,c,d,e,f,g,h,i,j").uploads = true ∧
      (validateCsvContent "order-id,sku,quantity-purchased,recipient-name,ship-address-1,ship-city,ship-state,ship-postal-code,order-item-id\na,b,c,d,e,f,g,h,i,j").warnings ≠ []) :=
  ⟨c7_amended.1 "order-id,quantity-purchased\nfoo,bar" "order-id,quantity-purchased" "foo,bar"
      [] (by decide) (by decide),
   c7_amended.2
      "order-id,sku,quantity-purchased,recipient-name,ship-address-1,ship-city,ship-state,ship-postal-code,order-item-id\na,b,c,d,e,f,g,h,i,j"
      "order-id,sku,quantity-purchased,recipient-name,ship-address-1,ship-city,ship-state,ship-postal-code,order-item-id"
      "a,b,c,d,e,f,g,h,i,j" [] (by decide) (by decide) (by decide) (by decide)⟩
